import Mathlib

/-!
# Verification of the wptools fetch-cache-validate-normalize core

A shallow embedding of the orchestration core of the `wptools` repository
(`src/wptools/core.py` and `src/wptools/restbase.py`), together with proofs
about the embedded operations.

Modelling conventions:

* Python dicts are association lists (`Dict`) with Python's insertion-order
  update semantics (`dset` overwrites in place, otherwise appends).
* JSON values are `JValue`; Python truthiness is `truthy`.
* A raw HTTP response string is abstracted by `Body`: its raw text plus the
  outcome of JSON-parsing it (`none` when the body is not valid JSON).  The
  JSON parser itself lives in `wptools.utils` which is not part of the
  sources, so the parse outcome is carried as data.
* Fallible Python code returns `Except WPError`.  Classified exceptions of
  the source keep their classification; unclassified Python exceptions
  (`IndexError`, `KeyError`, `TypeError`, `AttributeError`) are all mapped
  to `WPError.crash`.  On a crash the partially mutated Python state is not
  modelled (the exception propagates out of the library either way).
-/

/-- JSON value, as produced by parsing an API response body. -/
inductive JValue where
  | null : JValue
  | bool : Bool → JValue
  | num : Int → JValue
  | str : String → JValue
  | arr : List JValue → JValue
  | obj : List (String × JValue) → JValue

/-- Python dict with string keys: an insertion-ordered association list. -/
abbrev Dict (α : Type) := List (String × α)

/-- `k in d` for a Python dict. -/
def dmem (d : Dict α) (k : String) : Bool :=
  d.any (fun p => p.1 = k)

/-- `d.get(k)` / `d[k]` lookup for a Python dict. -/
def dget (d : Dict α) (k : String) : Option α :=
  (d.find? (fun p => p.1 = k)).map (fun p => p.2)

/-- `d[k] = v` for a Python dict: overwrite in place, else append. -/
def dset (d : Dict α) (k : String) (v : α) : Dict α :=
  if dmem d k then d.map (fun p => if p.1 = k then (k, v) else p)
  else d ++ [(k, v)]

/-- `del d[k]` for a Python dict. -/
def ddel (d : Dict α) (k : String) : Dict α :=
  d.filter (fun p => p.1 ≠ k)

/-- `base.update(new)` for Python dicts: fold the new pairs into the base. -/
def dictUpdate (base new : Dict JValue) : Dict JValue :=
  new.foldl (fun acc p => dset acc p.1 p.2) base

/-- Python truthiness of a JSON value (`bool(v)`). -/
def truthy : JValue → Bool
  | .null => false
  | .bool b => b
  | .num n => n ≠ 0
  | .str s => s ≠ ""
  | .arr xs => !xs.isEmpty
  | .obj kvs => !kvs.isEmpty

/-- `v.get(k)` when `v` is a JSON object; `none` when the key is absent.
(Callers that would crash in Python on a non-dict receiver guard the
receiver's shape separately.) -/
def jget (v : JValue) (k : String) : Option JValue :=
  match v with
  | .obj kvs => ((kvs : Dict JValue).find? (fun p => p.1 = k)).map (fun p => p.2)
  | _ => none

/-- `v.get(k)` returning Python `None` (`JValue.null`) when absent. -/
def jgetD (v : JValue) (k : String) : JValue :=
  (jget v k).getD .null

/-- Python `a or b`: the first operand when truthy, else the second. -/
def pyOr (a b : JValue) : JValue :=
  if truthy a then a else b

/-- Error taxonomy of the core, following §7 of the specification.
`crash` stands for any unclassified Python exception
(`IndexError`, `KeyError`, `TypeError`, `AttributeError`). -/
inductive WPError where
  | emptyResponse : WPError
  | malformed : WPError
  | apiError : WPError
  | notFound : WPError
  | needTitle : WPError
  | titlesConflict : WPError
  | crash : WPError
deriving DecidableEq

/- ### String helpers mirroring the Python string operations used -/

/-- One step of `s.split(sep)` over the character list. -/
def splitSegGo : List Char → List Char → List String
  | [], acc => [String.mk acc.reverse]
  | c :: cs, acc =>
      if c = '/' then String.mk acc.reverse :: splitSegGo cs []
      else splitSegGo cs (c :: acc)

/-- Python `s.split('/')` (keeps empty segments between separators). -/
def splitSeg (s : String) : List String :=
  splitSegGo s.data []

/-- Python `'/'.join(parts)`. -/
def joinSlash : List String → String
  | [] => ""
  | [x] => x
  | x :: y :: xs => x ++ "/" ++ joinSlash (y :: xs)

/-- Whether the first character list is a prefix of the second. -/
def startsWithChars : List Char → List Char → Bool
  | [], _ => true
  | _ :: _, [] => false
  | p :: ps, c :: cs => p = c && startsWithChars ps cs

/-- Python `s.startswith(t)`. -/
def pyStartsWith (t s : String) : Bool :=
  startsWithChars t.data s.data

/-- Whether the first character list occurs as a contiguous sublist. -/
def hasSubChars (pat : List Char) : List Char → Bool
  | [] => startsWithChars pat []
  | c :: cs => startsWithChars pat (c :: cs) || hasSubChars pat cs

/-- Python `t in s` for strings (substring test). -/
def pySubstr (t s : String) : Bool :=
  hasSubChars t.data s.data

/-- Python `s.replace(' ', '_')`. -/
def underscored (s : String) : String :=
  String.mk (s.data.map (fun c => if c = ' ' then '_' else c))

/- ### Endpoint resolver (`restbase.py`, `_parse_endpoint`, lines 73-99) -/

/--
`WPToolsRESTBase._parse_endpoint(self, endpoint, title)`.

Besides the returned path the Python method has one side effect: when three
segments result and no title was known, it adopts the third segment as
`self.params['title']`.  The embedding returns `(path, newTitle)` where
`newTitle` is the (possibly adopted) title.

`.error .crash` is the `IndexError` raised by `parts[0]` when the supplied
endpoint contains only separators.
-/
def parse_endpoint (endpoint : Option String) (title : Option String) :
    Except WPError (String × Option String) :=
  match endpoint with
  | none => .ok ("/page/", title)
  | some e =>
    if e = "" then .ok ("/page/", title)
    else
      let parts := (splitSeg e).filter (fun x => x ≠ "")
      match parts with
      | [] => .error .crash
      | p :: rest =>
        let parts := if p = "page" then p :: rest else "page" :: p :: rest
        match (if parts.length = 2 then
                 match title with
                 | some t => Except.ok (parts ++ [t])
                 | none => Except.error WPError.needTitle
               else Except.ok parts : Except WPError (List String)) with
        | .error err => .error err
        | .ok parts =>
          if parts.length = 3 then
            match title with
            | some t =>
                if t ≠ parts.getD 2 "" then .error .titlesConflict
                else .ok ("/" ++ joinSlash parts, title)
            | none => .ok ("/" ++ joinSlash parts, some (parts.getD 2 ""))
          else .ok ("/" ++ joinSlash parts, title)

/- ### Instance state (`core.py`, `WPTools.__init__`) -/

/-- Transport info for one response (`req.info`): HTTP status and
content-type, the two fields the core reads. -/
structure Info where
  status : Int
  content : String

/-- A raw response body, abstracted by its text and its JSON-parse outcome
(`none` when the text is not valid JSON).  `raw = ""` is the falsy case
(`not response`), covering both an empty string and Python `None`. -/
structure Body where
  raw : String
  parsed : Option JValue

/-- One `cache[action]` entry: `{query, response, info}`, each key optional
because the entry is populated in stages. -/
structure CacheEntry where
  query : Option String := none
  response : Option Body := none
  info : Option Info := none

/-- The mutable instance state of a `WPTools` object: the `cache` and `data`
maps, the construction-time `params` (lang, wiki, title, endpoint) and
`flags` (silent, skip).  `verbose`, `variant` and `pageid` are never read by
the modelled operations and are omitted. -/
structure State where
  cache : Dict CacheEntry
  data : Dict JValue
  lang : String := "en"
  wiki : Option String := none
  title : Option String := none
  endpoint : String := "/page/"
  silent : Bool := false
  skip : List String := []

/-- Modelled from the spec: `utils.stderr(msg, silent=False)` (the `utils`
module is not under `src/`).  §6: diagnostic notices go to a side channel
and are suppressed when silent.  The result is the list of messages
actually emitted. -/
def stderr (msg : String) (silent : Bool) : List String :=
  if silent then [] else [msg]

/- ### Response validator (`core.py`, `_load_response`, lines 80-104) -/

/-- Python `'-1' in v` where `v = data.get('entities')`: key membership for
a dict, element equality for a list, substring for a string; a `TypeError`
(crash) on `None` and numbers. -/
def pyIn (needle : String) : Option JValue → Except WPError Bool
  | some (.obj kvs) => .ok (kvs.any (fun p => p.1 = needle))
  | some (.arr xs) =>
      .ok (xs.any (fun v => match v with | .str s => s = needle | _ => false))
  | some (.str s) => .ok (pySubstr needle s)
  | _ => .error .crash

/--
`WPTools._load_response(self, action)` given the cache entry for `action`.

Error mapping: missing `query`/`response` keys are `KeyError` (`crash`);
a falsy response is the `StandardError` (`emptyResponse`); a JSON parse
failure is the re-raised `ValueError` (`malformed`); the three acceptance
checks raise `LookupError` (`apiError`); `data.get` on a non-dict
top-level value is an `AttributeError` (`crash`).
-/
def load_response (action : String) (entry : CacheEntry) : Except WPError JValue :=
  match entry.query with
  | none => .error .crash
  | some _ =>
    match entry.response with
    | none => .error .crash
    | some body =>
      if body.raw = "" then .error .emptyResponse
      else
        match body.parsed with
        | none => .error .malformed
        | some data =>
          match data with
          | .obj _ =>
            if truthy (jgetD data "error") then .error .apiError
            else if action = "parse" && !truthy (jgetD data "parse") then
              .error .apiError
            else if action = "wikidata" then
              match pyIn "-1" (jget data "entities") with
              | .error e => .error e
              | .ok true => .error .apiError
              | .ok false => .ok data
            else .ok data
          | _ => .error .crash

/- ### RESTBase response handling (`restbase.py`, lines 47-71) -/

mutual

/-- Python `str()` rendering of a JSON value, used only to build the
root-listing diagnostic message (whose exact text no claim inspects). -/
def jshow : JValue → String
  | .null => "None"
  | .bool true => "True"
  | .bool false => "False"
  | .num n => toString n
  | .str s => s
  | .arr xs => "[" ++ jshowArr xs ++ "]"
  | .obj kvs => "\x7b" ++ jshowObj kvs ++ "\x7d"

/-- Comma-joined rendering of a JSON array's elements. -/
def jshowArr : List JValue → String
  | [] => ""
  | [x] => jshow x
  | x :: y :: xs => jshow x ++ ", " ++ jshowArr (y :: xs)

/-- Comma-joined rendering of a JSON object's pairs. -/
def jshowObj : List (String × JValue) → String
  | [] => ""
  | [(k, v)] => k ++ ": " ++ jshow v
  | (k, v) :: p :: ps => k ++ ": " ++ jshow v ++ ", " ++ jshowObj (p :: ps)

end

/-- Result of `_handle_response`: updated state, emitted notices, and the
response to normalize (`none` when the method returned early). -/
structure HandleOut where
  st : State
  notices : List String
  res : Option JValue

/--
`WPToolsRESTBase._handle_response(self)` (restbase.py lines 47-71).

Reads the cached `restbase` entry; on an HTML content-type stores the raw
body under `data['html']` and returns early; otherwise validates via
`_load_response`, raises `LookupError` (`notFound`) on a 404 status, and on
the default root endpoint emits the entry-point listing diagnostic
(`utils.stderr` with no silent argument, hence always emitted) and deletes
the `restbase` cache entry.  Missing cache keys are `KeyError` (`crash`).
The `bytes` decode of the Python code is a no-op here since bodies are
modelled as text.
-/
def handle_response (st : State) : Except WPError HandleOut :=
  match dget st.cache "restbase" with
  | none => .error .crash
  | some entry =>
    match entry.info with
    | none => .error .crash
    | some info =>
      if pyStartsWith "text/html" info.content then
        match entry.response with
        | none => .error .crash
        | some body =>
          .ok ⟨{st with data := dset st.data "html" (.str body.raw)}, [], none⟩
      else
        match load_response "restbase" entry with
        | .error e => .error e
        | .ok response =>
          if info.status = 404 then .error .notFound
          else if st.endpoint = "/page/" then
            .ok ⟨{st with cache := ddel st.cache "restbase"},
                 ["RESTBase /page/ entry points: " ++ jshow (jgetD response "items")],
                 none⟩
          else .ok ⟨st, [], some response⟩

/- ### RESTBase data normalizer (`restbase.py`, lines 107-182) -/

/-- Modelled from the spec: `utils.wikidata_url(item)` (the `utils` module
is not under `src/`): the derived Wikidata lookup URL for an item id. -/
def wikidata_url (item : String) : String :=
  "https://www.wikidata.org/wiki/" ++ item

/-- Scanner locating the first `://` in a URL's character list, returning
the text before it and the text after it. -/
def schemeSplitGo : List Char → List Char → Option (List Char × List Char)
  | _, [] => none
  | acc, c :: cs =>
      if startsWithChars [':', '/', '/'] (c :: cs) then some (acc.reverse, cs.drop 2)
      else schemeSplitGo (c :: acc) cs

/-- `urlparse(s).scheme`, modelled for `scheme://host/path` URLs
(`urlparse` is an external library; scheme-less strings give `""`,
matching `urlparse`). -/
def urlSchemeOf (s : String) : String :=
  match schemeSplitGo [] s.data with
  | some (sch, _) => String.mk sch
  | none => ""

/-- `urlparse(s).netloc`, modelled for `scheme://host/path` URLs. -/
def urlNetlocOf (s : String) : String :=
  match schemeSplitGo [] s.data with
  | some (_, rest) => String.mk (rest.takeWhile (fun c => c ≠ '/'))
  | none => ""

/-- Python `"%s" % v` for an optional string (`None` renders as `"None"`). -/
def pyStr : Option String → String
  | some t => t
  | none => "None"

/-- `self.data['image'].append(img)`: crash when `data['image']` is not a
list. -/
def appendImage (data : Dict JValue) (img : Dict JValue) :
    Except WPError (Dict JValue) :=
  match dget data "image" with
  | some (.arr xs) => .ok (dset data "image" (.arr (xs ++ [.obj img])))
  | _ => .error .crash

/-- The tagged Image Record built for one truthy shape: a fresh dict
`{'kind': tag}` updated with the shape's pairs and, when `useSource` (the
original-image and thumbnail blocks), a `url` key copied from a truthy
`source` key. -/
def imageRecord (tag : String) (useSource : Bool) (kvs : Dict JValue) :
    Dict JValue :=
  let img := dictUpdate [("kind", .str tag)] kvs
  if useSource && truthy (jgetD (.obj kvs) "source") then
    dictUpdate img [("url", jgetD (.obj kvs) "source")]
  else img

/-- One of the three per-shape blocks of `_unpack_images` (restbase.py
lines 165-182): when the shape is truthy, build its tagged record and
append it to `data['image']`.  `dict.update` of a non-dict shape is a
crash. -/
def image_shape_step (tag : String) (useSource : Bool) (shape : JValue)
    (data : Dict JValue) : Except WPError (Dict JValue) :=
  if truthy shape then
    match shape with
    | .obj kvs => appendImage data (imageRecord tag useSource kvs)
    | _ => .error .crash
  else .ok data

/--
`WPToolsRESTBase._unpack_images(self, rdata)` (restbase.py lines 153-182),
acting on the shared `data` map: initialise `data['image']` to `[]` when
any shape is present and the key is absent, then run the three per-shape
append blocks in source order.
-/
def unpack_images (rdata : JValue) (data0 : Dict JValue) :
    Except WPError (Dict JValue) :=
  let image := jgetD rdata "image"
  let originalimage := jgetD rdata "originalimage"
  let thumbnail := jgetD rdata "thumbnail"
  let data :=
    if truthy image || truthy originalimage || truthy thumbnail then
      if dmem data0 "image" then data0 else dset data0 "image" (.arr [])
    else data0
  match image_shape_step "restbase-image" false image data with
  | .error e => .error e
  | .ok data =>
    match image_shape_step "restbase-original" true originalimage data with
    | .error e => .error e
    | .ok data =>
      match image_shape_step "restbase-thumb" true thumbnail data with
      | .error e => .error e
      | .ok data => .ok data

/-- The `lastmodified` block (restbase.py lines 123-129): when truthy,
merge `{'page': lm}` into `data['modified']`, creating the map when absent;
`update` on a non-dict existing value is a crash. -/
def modified_step (d : Dict JValue) (lm : JValue) : Except WPError (Dict JValue) :=
  if truthy lm then
    if dmem d "modified" then
      match dget d "modified" with
      | some (.obj kvs) =>
          .ok (dset d "modified" (.obj (dictUpdate kvs [("page", lm)])))
      | _ => .error .crash
    else .ok (dset d "modified" (.obj [("page", lm)]))
  else .ok d

/-- The `sections` block (restbase.py lines 131-133): when truthy, store
the `text` of the first section as `data['lead']`; indexing or `.get` on an
unexpected shape is a crash. -/
def lead_step (d : Dict JValue) (secs : JValue) : Except WPError (Dict JValue) :=
  if truthy secs then
    match secs with
    | .arr (h :: _) =>
      match h with
      | .obj _ => .ok (dset d "lead" (jgetD h "text"))
      | _ => .error .crash
    | _ => .error .crash
  else .ok d

/-- The `title` block (restbase.py lines 135-137): when truthy, store the
title with spaces replaced by underscores. -/
def title_step (d : Dict JValue) (t : JValue) : Except WPError (Dict JValue) :=
  if truthy t then
    match t with
    | .str s => .ok (dset d "title" (.str (underscored s)))
    | _ => .error .crash
  else .ok d

/-- The `wikibase_item` block (restbase.py lines 139-142): when truthy,
store the item and its derived lookup URL. -/
def wikibase_step (d : Dict JValue) (wb : JValue) : Except WPError (Dict JValue) :=
  if truthy wb then
    match wb with
    | .str s =>
        .ok (dset (dset d "wikibase" wb) "wikidata_url" (.str (wikidata_url s)))
    | _ => .error .crash
  else .ok d

/-- The URL block (restbase.py lines 144-149): derive the canonical URL
from the cached query string's scheme and host and the known params title,
and the raw-content URL from it.  A missing query (`none`) is the
`KeyError` crash. -/
def url_step (d : Dict JValue) (q : Option String) (ptitle : Option String) :
    Except WPError (Dict JValue) :=
  match q with
  | none => .error .crash
  | some qs =>
    let durl := urlSchemeOf qs ++ "://" ++ urlNetlocOf qs ++ "/wiki/" ++ pyStr ptitle
    .ok (dset (dset d "url" (.str durl)) "url_raw" (.str (durl ++ "?action=raw")))

/--
The field-extraction part of `WPToolsRESTBase._set_restbase_data`
(restbase.py lines 118-149): all writes into the shared `data` map from a
validated response `res`, in source order.  `q` is the cached query string
(`self.cache['restbase']['query']`, read at line 144) and `ptitle` is
`self.params['title']`.  A non-dict `res` crashes at the first `.get`.
-/
def extract_fields (data : Dict JValue) (res : JValue) (q : Option String)
    (ptitle : Option String) : Except WPError (Dict JValue) :=
  match res with
  | .obj _ =>
    let d := dset data "description" (jgetD res "description")
    let d := dset d "pageid" (pyOr (jgetD res "id") (jgetD res "pageid"))
    let d := dset d "exrest" (jgetD res "extract")
    let d := dset d "exhtml" (jgetD res "extract_html")
    match modified_step d (jgetD res "lastmodified") with
    | .error e => .error e
    | .ok d =>
      match lead_step d (jgetD res "sections") with
      | .error e => .error e
      | .ok d =>
        match title_step d (pyOr (jgetD res "title") (jgetD res "normalizedtitle")) with
        | .error e => .error e
        | .ok d =>
          match wikibase_step d (jgetD res "wikibase_item") with
          | .error e => .error e
          | .ok d => url_step d q ptitle
  | _ => .error .crash

/--
`WPToolsRESTBase._set_restbase_data(self)` (restbase.py lines 113-151):
handle the cached response, and unless the handler returned early, extract
the fields and unpack the images into the shared `data` map.  Returns the
updated state and the emitted notices.
-/
def set_restbase_data (st : State) : Except WPError (State × List String) :=
  match handle_response st with
  | .error e => .error e
  | .ok out =>
    match out.res with
    | none => .ok (out.st, out.notices)
    | some res =>
      match extract_fields out.st.data res
          ((dget out.st.cache "restbase").bind (fun e => e.query)) st.title with
      | .error e => .error e
      | .ok data2 =>
        match unpack_images res data2 with
        | .error e => .error e
        | .ok data3 => .ok ({out.st with data := data3}, out.notices)

/- ### Action cache and fetch lifecycle (`core.py`, `_get`, lines 46-78) -/

/-- Observable outcome of one `_get` call: the final state, the emitted
diagnostic notices, how many times the Transport Adapter was invoked, and
the classified error the call raised (if any). -/
structure GetOutcome where
  st : State
  notices : List String
  calls : Nat
  err : Option WPError

/-- The body of `_get` after the cache check (`core.py` lines 59-78):
skip-list check, query construction and caching, transport call, response
caching, and the `_set_data` dispatch.  The Transport Adapter is an oracle:
`resp`/`rinfo` are what its single invocation would return.  Note the
skip-list notice is emitted through `utils.stderr` with no silent argument. -/
def get_body (buildQuery : State → String → String)
    (setData : State → String → Except WPError (State × List String))
    (st1 : State) (action : String) (resp : Body) (rinfo : Info) : GetOutcome :=
  if st1.skip.contains action then
    ⟨st1, stderr ("+ skipping " ++ action) false, 0, none⟩
  else
    let q := buildQuery st1 action
    let e0 := (dget st1.cache action).getD {}
    let st2 := {st1 with cache := dset st1.cache action {e0 with query := some q}}
    let e1 := (dget st2.cache action).getD {}
    let st3 := {st2 with cache := dset st2.cache action {e1 with response := some resp}}
    let e2 := (dget st3.cache action).getD {}
    let st4 := {st3 with cache := dset st3.cache action {e2 with info := some rinfo}}
    match setData st4 action with
    | .ok (st5, ns) => ⟨st5, ns, 1, none⟩
    | .error e => ⟨st4, [], 1, some e⟩

/--
`WPTools._get(self, action, show, proxy, timeout)` (core.py lines 46-78),
parameterized by the two abstract methods a subclass supplies: `_query`
(the Query Builder call) and `_set_data` (the Data Normalizer).

A cached action other than `imageinfo` short-circuits with a silence-able
notice and no state change; an uncached action first gets an empty cache
entry; `imageinfo` falls through to `get_body` either way.  `proxy` and
`timeout` are passed through to the Transport Adapter, which is modelled as
the oracle pair `resp`/`rinfo`; the `show` dump (a pure diagnostic render
of `data`) is outside the modelled observables.
-/
def WPTools_get (buildQuery : State → String → String)
    (setData : State → String → Except WPError (State × List String))
    (st : State) (action : String) (resp : Body) (rinfo : Info) : GetOutcome :=
  if dmem st.cache action then
    if action ≠ "imageinfo" then
      ⟨st, stderr ("+ " ++ action ++ " results in cache") st.silent, 0, none⟩
    else
      get_body buildQuery setData st action resp rinfo
  else
    get_body buildQuery setData
      {st with cache := dset st.cache action {}} action resp rinfo

/- ### RESTBase instantiation of the fetch lifecycle -/

/-- Modelled from the spec: `WPToolsQuery.restbase(endpoint)` (the `query`
module is not under `src/`): the Query Builder returns a fully formed query
string for the resource-oriented endpoint, built from the wiki host
override or the language domain. -/
def restbaseQuery (st : State) : String :=
  "https://" ++ (match st.wiki with
                 | some w => w
                 | none => st.lang ++ ".wikipedia.org")
    ++ "/api/rest_v1" ++ st.endpoint

/-- `WPToolsRESTBase._get('restbase', ...)`: the core fetch lifecycle with
the RESTBase `_query` and `_set_data` implementations
(restbase.py lines 101-111). -/
def restbaseGet (st : State) (resp : Body) (rinfo : Info) : GetOutcome :=
  WPTools_get (fun s _ => restbaseQuery s) (fun s _ => set_restbase_data s)
    st "restbase" resp rinfo

/- ### Lemmas about the Python dict embedding -/

theorem find?_setter_map_ne (d : Dict α) (k k' : String) (v : α) (h : k' ≠ k) :
    List.find? (fun p => p.1 = k')
      (d.map (fun p => if p.1 = k then (k, v) else p)) =
    List.find? (fun p => p.1 = k') d := by
  induction d with
  | nil => rfl
  | cons p d ih =>
    by_cases hp : p.1 = k
    · have h1 : ¬(p.1 = k') := by rw [hp]; exact fun hh => h hh.symm
      have h2 : ¬((k, v).1 = k') := fun hh => h hh.symm
      simp only [List.map_cons, hp, if_true, List.find?_cons,
        decide_eq_false h2, decide_eq_false h1]
      exact ih
    · simp only [List.map_cons, hp, if_false, List.find?_cons]
      by_cases hq : p.1 = k'
      · rw [decide_eq_true hq]
      · rw [decide_eq_false hq]
        exact ih

theorem find?_append_pairs (d e : Dict α) (k : String) :
    List.find? (fun p => p.1 = k) (d ++ e) =
      ((List.find? (fun p => p.1 = k) d).orElse
        (fun _ => List.find? (fun p => p.1 = k) e)) := by
  induction d with
  | nil => rfl
  | cons p d ih =>
    by_cases hq : p.1 = k
    · simp only [List.cons_append, List.find?_cons, decide_eq_true hq]
      rfl
    · simp only [List.cons_append, List.find?_cons, decide_eq_false hq]
      exact ih

theorem dget_eq_none_of_not_dmem (d : Dict α) (k : String) (h : dmem d k = false) :
    dget d k = none := by
  induction d with
  | nil => rfl
  | cons p d ih =>
    simp only [dmem, List.any_cons, Bool.or_eq_false_iff] at h
    have hp : ¬(p.1 = k) := of_decide_eq_false h.1
    simp only [dget, List.find?_cons, decide_eq_false hp]
    exact ih h.2

theorem dget_dset_self (d : Dict α) (k : String) (v : α) :
    dget (dset d k v) k = some v := by
  unfold dset
  by_cases hm : dmem d k
  · simp only [hm, if_true]
    induction d with
    | nil => simp [dmem] at hm
    | cons p d ih =>
      by_cases hp : p.1 = k
      · simp [dget, List.find?_cons, hp]
      · have hm' : dmem d k := by
          simp only [dmem, List.any_cons] at hm
          rcases Bool.or_eq_true_iff.mp hm with h | h
          · exact absurd (of_decide_eq_true h) hp
          · exact h
        simp only [List.map_cons, hp, if_false, dget, List.find?_cons,
          decide_eq_false hp]
        simpa [dget] using ih hm'
  · rw [Bool.not_eq_true] at hm
    simp only [hm, Bool.false_eq_true, if_false, dget, find?_append_pairs]
    have h0 : dget d k = none := dget_eq_none_of_not_dmem d k hm
    simp only [dget] at h0
    rw [Option.map_eq_none'.mp h0]
    simp [List.find?_cons]

theorem dget_dset_ne (d : Dict α) (k k' : String) (v : α) (h : k' ≠ k) :
    dget (dset d k v) k' = dget d k' := by
  unfold dset
  by_cases hm : dmem d k
  · simp only [hm, if_true, dget, find?_setter_map_ne d k k' v h]
  · rw [Bool.not_eq_true] at hm
    simp only [hm, Bool.false_eq_true, if_false, dget, find?_append_pairs]
    cases hfd : List.find? (fun p => decide (p.1 = k')) d with
    | some p => rfl
    | none =>
      have h2 : ¬((k, v).1 = k') := fun hh => h hh.symm
      simp [Option.orElse, List.find?_cons, decide_eq_false h2]

theorem dmem_setter_map (d : Dict α) (k a : String) (v : α) (h : dmem d a = true) :
    dmem (d.map (fun p => if p.1 = k then (k, v) else p)) a = true := by
  induction d with
  | nil => simp [dmem] at h
  | cons p d ih =>
    simp only [dmem, List.any_cons, Bool.or_eq_true_iff] at h
    rcases h with h | h
    · have hpa : p.1 = a := of_decide_eq_true h
      by_cases hp : p.1 = k
      · have hak : a = k := by rw [← hpa, hp]
        simp [dmem, List.any_cons, hp, hak]
      · have hak : ¬(a = k) := by rw [← hpa]; exact hp
        simp only [dmem, List.map_cons, List.any_cons, Bool.or_eq_true_iff]
        left
        rw [if_neg hp]
        exact decide_eq_true hpa
    · have := ih h
      simp only [dmem, List.map_cons, List.any_cons, Bool.or_eq_true_iff]
      right
      simpa [dmem] using this

theorem dmem_dset_mono (d : Dict α) (k a : String) (v : α) (h : dmem d a = true) :
    dmem (dset d k v) a = true := by
  unfold dset
  by_cases hm : dmem d k
  · simp only [hm, if_true]
    exact dmem_setter_map d k a v h
  · rw [Bool.not_eq_true] at hm
    simp only [hm, Bool.false_eq_true, if_false]
    simp only [dmem, List.any_append, Bool.or_eq_true_iff]
    left
    exact h

theorem dget_dictUpdate_not_mem (d new : Dict JValue) (k : String)
    (h : ∀ p ∈ new, p.1 ≠ k) :
    dget (dictUpdate d new) k = dget d k := by
  induction new generalizing d with
  | nil => rfl
  | cons p ps ih =>
    simp only [dictUpdate, List.foldl_cons]
    have h1 : p.1 ≠ k := h p (List.mem_cons_self p ps)
    have h2 := ih (dset d p.1 p.2) (fun q hq => h q (List.mem_cons_of_mem p hq))
    simp only [dictUpdate] at h2
    rw [h2, dget_dset_ne d p.1 k p.2 (Ne.symm h1)]

/- ### Claim theorems -/

/-- **C2**: Endpoint resolution: no endpoint resolves to the root path
`/page/`; a bare sub-resource with a title resolves to `/page/summary/X`;
a full path agreeing with the title is accepted; a full path conflicting
with the title fails with the conflicting-title error; a sub-resource
without any title fails with the missing-title error; and whenever three
segments result with no previously known title, the third segment is
adopted as the instance title. -/
theorem parse_endpoint_resolution :
    parse_endpoint none (some "X") = .ok ("/page/", some "X") ∧
    parse_endpoint (some "summary") (some "X") = .ok ("/page/summary/X", some "X") ∧
    parse_endpoint (some "page/summary/X") (some "X") = .ok ("/page/summary/X", some "X") ∧
    parse_endpoint (some "page/summary/Y") (some "X") = .error .titlesConflict ∧
    parse_endpoint (some "summary") none = .error .needTitle ∧
    (∀ e s t : String,
      ((splitSeg e).filter (fun x => x ≠ "") = ["page", s, t] ∨
        ((splitSeg e).filter (fun x => x ≠ "") = [s, t] ∧ s ≠ "page")) →
      parse_endpoint (some e) none = .ok ("/" ++ joinSlash ["page", s, t], some t)) := by
  refine ⟨rfl, rfl, rfl, rfl, rfl, ?_⟩
  intro e s t h
  rcases h with h | ⟨h, hs⟩
  · by_cases he : e = ""
    · rw [he] at h
      simp [splitSeg, splitSegGo] at h
    · simp only [parse_endpoint, he, if_false, h]
      norm_num
  · by_cases he : e = ""
    · rw [he] at h
      simp [splitSeg, splitSegGo] at h
    · simp only [parse_endpoint, he, if_false, h, hs]
      norm_num

/-- Witness for `parse_endpoint_resolution`: the title-adoption conjunct at
the concrete endpoints `page/html/Z` (already rooted) and `summary/X`
(three segments result only after the `page` root is prepended). -/
theorem parse_endpoint_resolution_witness :
    (splitSeg "page/html/Z").filter (fun x => x ≠ "") = ["page", "html", "Z"] ∧
    parse_endpoint (some "page/html/Z") none =
      .ok ("/" ++ joinSlash ["page", "html", "Z"], some "Z") ∧
    ((splitSeg "summary/X").filter (fun x => x ≠ "") = ["summary", "X"] ∧
      ("summary" : String) ≠ "page") ∧
    parse_endpoint (some "summary/X") none =
      .ok ("/" ++ joinSlash ["page", "summary", "X"], some "X") :=
  ⟨rfl,
   parse_endpoint_resolution.2.2.2.2.2 "page/html/Z" "html" "Z" (Or.inl rfl),
   ⟨rfl, by decide⟩,
   parse_endpoint_resolution.2.2.2.2.2 "summary/X" "summary" "X"
     (Or.inr ⟨rfl, by decide⟩)⟩

/-- **C10**: an endpoint consisting only of path separators makes
`_parse_endpoint` raise the unclassified `IndexError` (`parts[0]` on an
empty segment list) rather than returning the root path or failing with a
classified missing-title or conflicting-title error. -/
theorem parse_endpoint_separators_crash :
    parse_endpoint (some "/") (some "X") = .error .crash ∧
    parse_endpoint (some "/") none = .error .crash ∧
    parse_endpoint (some "//") none = .error .crash :=
  ⟨rfl, rfl, rfl⟩

/-- **C1** fails as stated: the claim says every `imageinfo` invocation
performs a network call, but with `imageinfo` in the skip-list an
`imageinfo` `_get` invocation performs no network call. -/
theorem get_imageinfo_skipped_counterexample :
    ("imageinfo" ∈ ({ cache := [], data := [], skip := ["imageinfo"] } : State).skip) ∧
    (WPTools_get (fun _ _ => "") (fun s _ => .ok (s, []))
      { cache := [], data := [], skip := ["imageinfo"] }
      "imageinfo" ⟨"", none⟩ ⟨200, ""⟩).calls = 0 :=
  ⟨by decide, rfl⟩

/-- **C1** (amended): for every action other than `imageinfo` that already
has a cache entry, `_get` returns without invoking the Transport Adapter
and without changing the state; an `imageinfo` invocation performs a
network call unless `imageinfo` is in the skip-list; and fetching twice in
succession performs exactly one network call for a non-skip-listed,
uncached action whose first call leaves its cache entry in place. -/
theorem get_cache_idempotence
    (bq : State → String → String)
    (sd : State → String → Except WPError (State × List String))
    (st : State) (action : String) (r1 r2 : Body) (i1 i2 : Info) :
    (dmem st.cache action = true → action ≠ "imageinfo" →
      WPTools_get bq sd st action r1 i1 =
        ⟨st, stderr ("+ " ++ action ++ " results in cache") st.silent, 0, none⟩) ∧
    (action = "imageinfo" → st.skip.contains action = false →
      (WPTools_get bq sd st action r1 i1).calls = 1) ∧
    (st.skip.contains action = false → action ≠ "imageinfo" →
      dmem st.cache action = false →
      (WPTools_get bq sd st action r1 i1).calls = 1 ∧
      (dmem (WPTools_get bq sd st action r1 i1).st.cache action = true →
        (WPTools_get bq sd (WPTools_get bq sd st action r1 i1).st action r2 i2).calls = 0)) := by
  refine ⟨?_, ?_, ?_⟩
  · intro hc hii
    simp [WPTools_get, hc, hii]
  · intro hii hskip
    subst hii
    unfold WPTools_get get_body
    by_cases hc : dmem st.cache "imageinfo"
    · simp only [hc, if_true, ne_eq, not_true_eq_false, if_false, hskip]
      simp only [Bool.false_eq_true, if_false]
      cases sd _ "imageinfo" with
      | ok p => cases p; rfl
      | error e => rfl
    · simp only [hc]
      simp only [Bool.false_eq_true, if_false, hskip]
      cases sd _ "imageinfo" with
      | ok p => cases p; rfl
      | error e => rfl
  · intro hskip hii hc
    constructor
    · unfold WPTools_get get_body
      simp only [hc, Bool.false_eq_true, if_false, hskip]
      cases sd _ action with
      | ok p => cases p; rfl
      | error e => rfl
    · intro hmem
      generalize hS : (WPTools_get bq sd st action r1 i1).st = S at hmem
      unfold WPTools_get
      simp [hmem, hii]

/-- Witness for `get_cache_idempotence`: all three conjuncts at concrete
states (a cached `summary` action, an uncached `imageinfo` action, and the
two-successive-calls scenario). -/
theorem get_cache_idempotence_witness :
    dmem ([("summary", ({} : CacheEntry))] : Dict CacheEntry) "summary" = true ∧
    WPTools_get (fun _ _ => "") (fun s _ => .ok (s, []))
        { cache := [("summary", {})], data := [] } "summary" ⟨"", none⟩ ⟨200, ""⟩ =
      ⟨{ cache := [("summary", {})], data := [] }, ["+ summary results in cache"], 0, none⟩ ∧
    (WPTools_get (fun _ _ => "") (fun s _ => .ok (s, []))
        { cache := [], data := [] } "imageinfo" ⟨"", none⟩ ⟨200, ""⟩).calls = 1 ∧
    (WPTools_get (fun _ _ => "") (fun s _ => .ok (s, []))
        { cache := [], data := [] } "summary" ⟨"", none⟩ ⟨200, ""⟩).calls = 1 ∧
    (WPTools_get (fun _ _ => "") (fun s _ => .ok (s, []))
        (WPTools_get (fun _ _ => "") (fun s _ => .ok (s, []))
          { cache := [], data := [] } "summary" ⟨"", none⟩ ⟨200, ""⟩).st
        "summary" ⟨"", none⟩ ⟨200, ""⟩).calls = 0 := by
  refine ⟨by decide, ?_, ?_, ?_, ?_⟩
  · exact (get_cache_idempotence (fun _ _ => "") (fun s _ => .ok (s, []))
      { cache := [("summary", {})], data := [] } "summary" ⟨"", none⟩ ⟨"", none⟩
      ⟨200, ""⟩ ⟨200, ""⟩).1 (by decide) (by decide)
  · exact (get_cache_idempotence (fun _ _ => "") (fun s _ => .ok (s, []))
      { cache := [], data := [] } "imageinfo" ⟨"", none⟩ ⟨"", none⟩
      ⟨200, ""⟩ ⟨200, ""⟩).2.1 rfl (by decide)
  · exact ((get_cache_idempotence (fun _ _ => "") (fun s _ => .ok (s, []))
      { cache := [], data := [] } "summary" ⟨"", none⟩ ⟨"", none⟩
      ⟨200, ""⟩ ⟨200, ""⟩).2.2 (by decide) (by decide) (by decide)).1
  · exact ((get_cache_idempotence (fun _ _ => "") (fun s _ => .ok (s, []))
      { cache := [], data := [] } "summary" ⟨"", none⟩ ⟨"", none⟩ ⟨200, ""⟩
      ⟨200, ""⟩).2.2 (by decide) (by decide) (by decide)).2 (by decide)

/-- Helper: a skip-listed action makes `get_body` short-circuit with the
always-emitted skip notice and no other effect. -/
theorem get_body_skip (bq : State → String → String)
    (sd : State → String → Except WPError (State × List String))
    (st1 : State) (action : String) (r : Body) (i : Info)
    (hskip : st1.skip.contains action = true) :
    get_body bq sd st1 action r i =
      ⟨st1, stderr ("+ skipping " ++ action) false, 0, none⟩ := by
  unfold get_body
  rw [hskip]
  simp

/-- **C4** (amended): for every skip-listed action that is not a cache hit,
`_get` never invokes the Transport Adapter and raises no error, but it does
create an empty cache entry for the action (`cache[action] = {}` runs
before the skip check); `data` is unchanged. -/
theorem get_skip_no_call (bq : State → String → String)
    (sd : State → String → Except WPError (State × List String))
    (st : State) (action : String) (r : Body) (i : Info)
    (hskip : st.skip.contains action = true) (hc : dmem st.cache action = false) :
    (WPTools_get bq sd st action r i).calls = 0 ∧
    (WPTools_get bq sd st action r i).st.cache = dset st.cache action {} ∧
    (WPTools_get bq sd st action r i).st.data = st.data ∧
    (WPTools_get bq sd st action r i).err = none := by
  have hb := get_body_skip bq sd {st with cache := dset st.cache action {}}
    action r i (by simpa using hskip)
  unfold WPTools_get
  rw [hc]
  simp only [Bool.false_eq_true, if_false, hb]
  simp

/-- Witness for `get_skip_no_call` at a concrete skip-listed state. -/
theorem get_skip_no_call_witness :
    (({ cache := [], data := [], skip := ["query"] } : State).skip.contains "query" = true) ∧
    dmem ({ cache := [], data := [], skip := ["query"] } : State).cache "query" = false ∧
    (WPTools_get (fun _ _ => "") (fun s _ => .ok (s, []))
        { cache := [], data := [], skip := ["query"] } "query" ⟨"", none⟩ ⟨200, ""⟩).calls = 0 ∧
    (WPTools_get (fun _ _ => "") (fun s _ => .ok (s, []))
        { cache := [], data := [], skip := ["query"] } "query" ⟨"", none⟩ ⟨200, ""⟩).st.cache =
      dset ([] : Dict CacheEntry) "query" {} := by
  refine ⟨by decide, by decide, ?_, ?_⟩
  · exact (get_skip_no_call (fun _ _ => "") (fun s _ => .ok (s, []))
      { cache := [], data := [], skip := ["query"] } "query" ⟨"", none⟩ ⟨200, ""⟩
      (by decide) (by decide)).1
  · exact (get_skip_no_call (fun _ _ => "") (fun s _ => .ok (s, []))
      { cache := [], data := [], skip := ["query"] } "query" ⟨"", none⟩ ⟨200, ""⟩
      (by decide) (by decide)).2.1

/-- **C4** fails as stated: the claim says the skip-list short-circuit
creates no cache entry, but on a concrete skip-listed, uncached action the
cache gains an empty entry. -/
theorem get_skip_creates_entry_counterexample :
    (({ cache := [], data := [], skip := ["query"] } : State).skip.contains "query" = true) ∧
    dmem ({ cache := [], data := [], skip := ["query"] } : State).cache "query" = false ∧
    (WPTools_get (fun _ _ => "") (fun s _ => .ok (s, []))
        { cache := [], data := [], skip := ["query"] } "query" ⟨"", none⟩ ⟨200, ""⟩).calls = 0 ∧
    (WPTools_get (fun _ _ => "") (fun s _ => .ok (s, []))
        { cache := [], data := [], skip := ["query"] } "query" ⟨"", none⟩ ⟨200, ""⟩).st.cache =
      [("query", { query := none, response := none, info := none })] :=
  ⟨by decide, by decide, rfl, rfl⟩

/-- **C5** fails as stated: with the silent flag set, the skip-list notice
is still emitted to the diagnostic stream (the Python call site passes no
silent argument to `utils.stderr`). -/
theorem skip_notice_unsilenced_counterexample :
    (({ cache := [], data := [], silent := true, skip := ["query"] } : State).silent = true) ∧
    (WPTools_get (fun _ _ => "") (fun s _ => .ok (s, []))
        { cache := [], data := [], silent := true, skip := ["query"] }
        "query" ⟨"", none⟩ ⟨200, ""⟩).notices = ["+ skipping query"] :=
  ⟨rfl, rfl⟩

/-- **C5** (amended): the cache-hit notice is silence-able (suppressed when
silent, emitted otherwise), but the skip-list notice is emitted regardless
of the silent flag. -/
theorem get_notice_silencing (bq : State → String → String)
    (sd : State → String → Except WPError (State × List String))
    (st : State) (action : String) (r : Body) (i : Info) :
    (st.silent = true → dmem st.cache action = true → action ≠ "imageinfo" →
      (WPTools_get bq sd st action r i).notices = []) ∧
    (st.silent = false → dmem st.cache action = true → action ≠ "imageinfo" →
      (WPTools_get bq sd st action r i).notices =
        ["+ " ++ action ++ " results in cache"]) ∧
    (st.skip.contains action = true → dmem st.cache action = false →
      (WPTools_get bq sd st action r i).notices = ["+ skipping " ++ action]) := by
  refine ⟨?_, ?_, ?_⟩
  · intro hs hc hii
    simp [WPTools_get, hc, hii, stderr, hs]
  · intro hs hc hii
    simp [WPTools_get, hc, hii, stderr, hs]
  · intro hskip hc
    have hb := get_body_skip bq sd {st with cache := dset st.cache action {}}
      action r i (by simpa using hskip)
    unfold WPTools_get
    rw [hc]
    simp only [Bool.false_eq_true, if_false, hb]
    simp [stderr]

/-- Witness for `get_notice_silencing` at concrete silent states. -/
theorem get_notice_silencing_witness :
    (({ cache := [("summary", {})], data := [], silent := true } : State).silent = true) ∧
    dmem ({ cache := [("summary", {})], data := [], silent := true } : State).cache "summary" = true ∧
    (WPTools_get (fun _ _ => "") (fun s _ => .ok (s, []))
        { cache := [("summary", {})], data := [], silent := true }
        "summary" ⟨"", none⟩ ⟨200, ""⟩).notices = [] ∧
    (WPTools_get (fun _ _ => "") (fun s _ => .ok (s, []))
        { cache := [], data := [], silent := true, skip := ["query"] }
        "query" ⟨"", none⟩ ⟨200, ""⟩).notices = ["+ skipping " ++ "query"] := by
  refine ⟨rfl, by decide, ?_, ?_⟩
  · exact (get_notice_silencing _ _ _ "summary" _ _).1 rfl (by decide) (by decide)
  · exact (get_notice_silencing (fun _ _ => "") (fun s _ => .ok (s, []))
      { cache := [], data := [], silent := true, skip := ["query"] }
      "query" ⟨"", none⟩ ⟨200, ""⟩).2.2 (by decide) (by decide)

/-- **C3**: `_load_response` fails with the empty-response error on a falsy
cached body, with the malformed-response error when the body does not parse
as JSON, with the api-error when the parsed structure carries a truthy
`error` member, with the api-error for the `parse` action when the
top-level `parse` key is missing or falsy, and with the api-error for the
`wikidata` action when the sole returned entity id is the sentinel `-1`;
when none of the checks fire it returns the parsed structure itself,
extracting nothing. -/
theorem load_response_classification :
    (∀ (action q : String) (i : Option Info) (p : Option JValue),
      load_response action ⟨some q, some ⟨"", p⟩, i⟩ = .error .emptyResponse) ∧
    (∀ (action q raw : String) (i : Option Info), raw ≠ "" →
      load_response action ⟨some q, some ⟨raw, none⟩, i⟩ = .error .malformed) ∧
    (∀ (action q raw : String) (i : Option Info) (kvs : Dict JValue), raw ≠ "" →
      truthy (jgetD (.obj kvs) "error") = true →
      load_response action ⟨some q, some ⟨raw, some (.obj kvs)⟩, i⟩ = .error .apiError) ∧
    (∀ (q raw : String) (i : Option Info) (kvs : Dict JValue), raw ≠ "" →
      truthy (jgetD (.obj kvs) "error") = false →
      truthy (jgetD (.obj kvs) "parse") = false →
      load_response "parse" ⟨some q, some ⟨raw, some (.obj kvs)⟩, i⟩ = .error .apiError) ∧
    (∀ (q raw : String) (i : Option Info) (kvs : Dict JValue) (v : JValue), raw ≠ "" →
      truthy (jgetD (.obj kvs) "error") = false →
      jget (.obj kvs) "entities" = some (.obj [("-1", v)]) →
      load_response "wikidata" ⟨some q, some ⟨raw, some (.obj kvs)⟩, i⟩ = .error .apiError) ∧
    (∀ (action q raw : String) (i : Option Info) (kvs : Dict JValue), raw ≠ "" →
      truthy (jgetD (.obj kvs) "error") = false →
      (action = "parse" → truthy (jgetD (.obj kvs) "parse") = true) →
      (action = "wikidata" → pyIn "-1" (jget (.obj kvs) "entities") = .ok false) →
      load_response action ⟨some q, some ⟨raw, some (.obj kvs)⟩, i⟩ = .ok (.obj kvs)) := by
  refine ⟨?_, ?_, ?_, ?_, ?_, ?_⟩
  · intro action q i p
    unfold load_response
    simp
  · intro action q raw i hraw
    unfold load_response
    simp [hraw]
  · intro action q raw i kvs hraw herr
    unfold load_response
    simp [hraw, herr]
  · intro q raw i kvs hraw herr hparse
    unfold load_response
    simp [hraw, herr, hparse]
  · intro q raw i kvs v hraw herr hent
    unfold load_response
    simp [hraw, herr, hent, pyIn]
  · intro action q raw i kvs hraw herr hparse hwd
    unfold load_response
    by_cases ha : action = "parse"
    · subst ha
      simp [hraw, herr, hparse rfl]
    · by_cases hb : action = "wikidata"
      · subst hb
        simp [hraw, herr, ha, hwd rfl]
      · simp [hraw, herr, ha, hb]

/-- Witness for `load_response_classification`: all six conjuncts at
concrete cache entries. -/
theorem load_response_classification_witness :
    load_response "query" ⟨some "q", some ⟨"", none⟩, none⟩ = .error .emptyResponse ∧
    load_response "query" ⟨some "q", some ⟨"bad", none⟩, none⟩ = .error .malformed ∧
    load_response "query"
        ⟨some "q", some ⟨"e", some (.obj [("error", .obj [("code", .str "x")])])⟩, none⟩ =
      .error .apiError ∧
    load_response "parse" ⟨some "q", some ⟨"p", some (.obj [("x", .null)])⟩, none⟩ =
      .error .apiError ∧
    load_response "wikidata"
        ⟨some "q", some ⟨"w", some (.obj [("entities", .obj [("-1", .null)])])⟩, none⟩ =
      .error .apiError ∧
    load_response "query" ⟨some "q", some ⟨"g", some (.obj [("query", .str "ok")])⟩, none⟩ =
      .ok (.obj [("query", .str "ok")]) := by
  refine ⟨?_, ?_, ?_, ?_, ?_, ?_⟩
  · exact load_response_classification.1 "query" "q" none none
  · exact load_response_classification.2.1 "query" "q" "bad" none (by decide)
  · exact load_response_classification.2.2.1 "query" "q" "e" none
      [("error", .obj [("code", .str "x")])] (by decide) (by decide)
  · exact load_response_classification.2.2.2.1 "q" "p" none [("x", .null)]
      (by decide) (by decide) (by decide)
  · exact load_response_classification.2.2.2.2.1 "q" "w" none
      [("entities", .obj [("-1", .null)])] JValue.null (by decide) (by decide) rfl
  · exact load_response_classification.2.2.2.2.2 "query" "q" "g" none
      [("query", .str "ok")] (by decide) (by decide)
      (fun h => absurd h (by decide)) (fun h => absurd h (by decide))

/-- Helper: when the endpoint is not the default root, `_handle_response`
leaves the cache map untouched. -/
theorem handle_response_cache_eq (st : State) (hne : st.endpoint ≠ "/page/")
    (out : HandleOut) (h : handle_response st = .ok out) :
    out.st.cache = st.cache := by
  unfold handle_response at h
  repeat' split at h
  any_goals exact Except.noConfusion h
  all_goals (injection h with h; rw [← h])

/-- Helper: when the endpoint is not the default root, a successful
`_set_restbase_data` leaves the cache map untouched. -/
theorem set_restbase_data_cache_eq (st : State) (hne : st.endpoint ≠ "/page/")
    (p : State × List String) (h : set_restbase_data st = .ok p) :
    p.1.cache = st.cache := by
  unfold set_restbase_data at h
  repeat' split at h
  any_goals exact Except.noConfusion h
  all_goals (injection h with h; rw [← h])
  all_goals exact handle_response_cache_eq st hne _ (by assumption)

/-- **C6** fails as stated: the root-listing short-circuit of
`_handle_response` deletes the `restbase` cache entry, so the cache map
does not grow monotonically.  The state below has a cached `restbase`
listing response and the default root endpoint; after `_set_restbase_data`
succeeds the entry is gone. -/
theorem root_listing_deletes_entry_counterexample :
    dmem ({ cache := [("restbase",
              { query := some "https://en.wikipedia.org/api/rest_v1/page/",
                response := some ⟨"\x7b\x22items\x22: [\x22summary\x22]\x7d",
                  some (.obj [("items", .arr [.str "summary"])])⟩,
                info := some ⟨200, "application/json"⟩ })],
            data := [], endpoint := "/page/" } : State).cache "restbase" = true ∧
    (set_restbase_data
        { cache := [("restbase",
              { query := some "https://en.wikipedia.org/api/rest_v1/page/",
                response := some ⟨"\x7b\x22items\x22: [\x22summary\x22]\x7d",
                  some (.obj [("items", .arr [.str "summary"])])⟩,
                info := some ⟨200, "application/json"⟩ })],
          data := [], endpoint := "/page/" }).toOption.map
      (fun p => dmem p.1.cache "restbase") = some false :=
  ⟨by decide, rfl⟩

/-- **C6** (amended): the cache map grows monotonically — every existing
action key survives a restbase fetch — except through the root-listing
short-circuit: when the resolved endpoint is the default root `/page/`,
the handler deletes the `restbase` cache entry.  Here: for any state whose
endpoint is not the root, every cached action key is still cached after
`restbaseGet`. -/
theorem restbase_cache_monotone (st : State) (r : Body) (i : Info) (a : String)
    (hne : st.endpoint ≠ "/page/") (h : dmem st.cache a = true) :
    dmem (restbaseGet st r i).st.cache a = true := by
  unfold restbaseGet WPTools_get get_body
  by_cases hc : dmem st.cache "restbase"
  · rw [hc]
    simp +decide only [if_true]
    exact h
  · rw [Bool.not_eq_true] at hc
    rw [hc]
    simp only [Bool.false_eq_true, if_false]
    split
    · exact dmem_dset_mono _ _ _ _ h
    · split
      · rename_i st5 ns hp
        have hcache := set_restbase_data_cache_eq _ (by simpa using hne) (st5, ns) hp
        simp only at hcache
        rw [hcache]
        apply dmem_dset_mono
        apply dmem_dset_mono
        apply dmem_dset_mono
        apply dmem_dset_mono
        exact h
      · apply dmem_dset_mono
        apply dmem_dset_mono
        apply dmem_dset_mono
        apply dmem_dset_mono
        exact h

/-- Witness for `restbase_cache_monotone`: a concrete non-root state with a
cached `query` action keeps that entry across a restbase fetch. -/
theorem restbase_cache_monotone_witness :
    (({ cache := [("query", {})], data := [], endpoint := "/page/summary/X",
            title := some "X" } : State).endpoint ≠ "/page/") ∧
    dmem ({ cache := [("query", {})], data := [], endpoint := "/page/summary/X",
            title := some "X" } : State).cache "query" = true ∧
    dmem (restbaseGet
        { cache := [("query", {})], data := [], endpoint := "/page/summary/X",
            title := some "X" }
        ⟨"x", some (.obj [])⟩ ⟨200, "application/json"⟩).st.cache "query" = true :=
  ⟨by decide, by decide,
   restbase_cache_monotone
     { cache := [("query", {})], data := [], endpoint := "/page/summary/X",
         title := some "X" }
     ⟨"x", some (.obj [])⟩ ⟨200, "application/json"⟩ "query" (by decide) (by decide)⟩

/- ### Per-step lemmas for the restbase field extraction -/

/-- A successful `modified_step` changes no key but `modified`. -/
theorem modified_step_ok_get (d : Dict JValue) (lm : JValue) (d' : Dict JValue)
    (h : modified_step d lm = .ok d') (k : String) (hk : k ≠ "modified") :
    dget d' k = dget d k := by
  unfold modified_step at h
  repeat' split at h
  any_goals exact Except.noConfusion h
  all_goals (injection h with h; rw [← h])
  all_goals exact dget_dset_ne _ _ _ _ hk

/-- A successful `lead_step` changes no key but `lead`. -/
theorem lead_step_ok_get (d : Dict JValue) (secs : JValue) (d' : Dict JValue)
    (h : lead_step d secs = .ok d') (k : String) (hk : k ≠ "lead") :
    dget d' k = dget d k := by
  unfold lead_step at h
  repeat' split at h
  any_goals exact Except.noConfusion h
  all_goals (injection h with h; rw [← h])
  all_goals exact dget_dset_ne _ _ _ _ hk

/-- A successful `title_step` changes no key but `title`. -/
theorem title_step_ok_get (d : Dict JValue) (t : JValue) (d' : Dict JValue)
    (h : title_step d t = .ok d') (k : String) (hk : k ≠ "title") :
    dget d' k = dget d k := by
  unfold title_step at h
  repeat' split at h
  any_goals exact Except.noConfusion h
  all_goals (injection h with h; rw [← h])
  all_goals exact dget_dset_ne _ _ _ _ hk

/-- A successful `wikibase_step` changes no key but `wikibase` and
`wikidata_url`. -/
theorem wikibase_step_ok_get (d : Dict JValue) (wb : JValue) (d' : Dict JValue)
    (h : wikibase_step d wb = .ok d') (k : String)
    (hk1 : k ≠ "wikibase") (hk2 : k ≠ "wikidata_url") :
    dget d' k = dget d k := by
  unfold wikibase_step at h
  repeat' split at h
  any_goals exact Except.noConfusion h
  all_goals (injection h with h; rw [← h])
  all_goals rw [dget_dset_ne _ _ _ _ hk2, dget_dset_ne _ _ _ _ hk1]

/-- A successful `url_step` changes no key but `url` and `url_raw`. -/
theorem url_step_ok_get (d : Dict JValue) (q : Option String)
    (pt : Option String) (d' : Dict JValue)
    (h : url_step d q pt = .ok d') (k : String)
    (hk1 : k ≠ "url") (hk2 : k ≠ "url_raw") :
    dget d' k = dget d k := by
  unfold url_step at h
  repeat' split at h
  any_goals exact Except.noConfusion h
  all_goals (injection h with h; rw [← h])
  all_goals rw [dget_dset_ne _ _ _ _ hk2, dget_dset_ne _ _ _ _ hk1]

/-- A falsy `lastmodified` leaves the data untouched. -/
theorem modified_step_skip (d : Dict JValue) (lm : JValue)
    (h : truthy lm = false) : modified_step d lm = .ok d := by
  simp [modified_step, h]

/-- A falsy `sections` leaves the data untouched. -/
theorem lead_step_skip (d : Dict JValue) (secs : JValue)
    (h : truthy secs = false) : lead_step d secs = .ok d := by
  simp [lead_step, h]

/-- A falsy title leaves the data untouched. -/
theorem title_step_skip (d : Dict JValue) (t : JValue)
    (h : truthy t = false) : title_step d t = .ok d := by
  simp [title_step, h]

/-- A falsy `wikibase_item` leaves the data untouched. -/
theorem wikibase_step_skip (d : Dict JValue) (wb : JValue)
    (h : truthy wb = false) : wikibase_step d wb = .ok d := by
  simp [wikibase_step, h]

/-- A non-empty string title is stored with spaces underscored. -/
theorem title_step_str (d : Dict JValue) (s : String) (h : s ≠ "") :
    title_step d (.str s) = .ok (dset d "title" (.str (underscored s))) := by
  simp [title_step, truthy, h]

/-- **C7** fails as stated: field extraction is not purely additive.  A
prior `description` value is overwritten with Python `None` when the new
response lacks the key. -/
theorem restbase_description_reset_counterexample :
    dget ([("description", JValue.str "x")] : Dict JValue) "description" =
      some (JValue.str "x") ∧
    (set_restbase_data
        { cache := [("restbase",
              { query := some "https://en.wikipedia.org/api/rest_v1/page/summary/X",
                response := some ⟨"\x7b\x22x\x22: null\x7d",
                  some (.obj [("x", JValue.null)])⟩,
                info := some ⟨200, "application/json"⟩ })],
          data := [("description", JValue.str "x")],
          title := some "X", endpoint := "/page/summary/X" }).toOption.map
      (fun p => dget p.1.data "description") = some (some JValue.null) :=
  ⟨rfl, rfl⟩

/-- **C7** (amended): the restbase field extraction overwrites
`description`, `pageid`, `exrest` and `exhtml` unconditionally with the new
response's values (Python `None` when absent), with `pageid` the first
truthy of the `id` and `pageid` source keys (Python `or`); the conditional
fields are never reset: `title`, `lead` and `wikibase` keep their previous
values when the corresponding response piece is falsy, and a present string
title is stored with spaces normalized to underscores. -/
theorem extract_fields_spec (data : Dict JValue) (res : JValue) (q : Option String)
    (pt : Option String) (d' : Dict JValue)
    (h : extract_fields data res q pt = .ok d') :
    dget d' "description" = some (jgetD res "description") ∧
    dget d' "pageid" = some (pyOr (jgetD res "id") (jgetD res "pageid")) ∧
    dget d' "exrest" = some (jgetD res "extract") ∧
    dget d' "exhtml" = some (jgetD res "extract_html") ∧
    (truthy (pyOr (jgetD res "title") (jgetD res "normalizedtitle")) = false →
      dget d' "title" = dget data "title") ∧
    (∀ s : String, s ≠ "" →
      pyOr (jgetD res "title") (jgetD res "normalizedtitle") = .str s →
      dget d' "title" = some (.str (underscored s))) ∧
    (truthy (jgetD res "sections") = false → dget d' "lead" = dget data "lead") ∧
    (truthy (jgetD res "wikibase_item") = false →
      dget d' "wikibase" = dget data "wikibase") := by
  cases res with
  | null => exact Except.noConfusion h
  | bool b => exact Except.noConfusion h
  | num n => exact Except.noConfusion h
  | str s => exact Except.noConfusion h
  | arr xs => exact Except.noConfusion h
  | obj kvs =>
    unfold extract_fields at h
    dsimp only [] at h
    split at h
    · exact Except.noConfusion h
    · rename_i d1 hm1
      split at h
      · exact Except.noConfusion h
      · rename_i d2 hl1
        split at h
        · exact Except.noConfusion h
        · rename_i d3 ht1
          split at h
          · exact Except.noConfusion h
          · rename_i d4 hw1
            have base : ∀ k : String, k ≠ "modified" → k ≠ "lead" → k ≠ "title" →
                k ≠ "wikibase" → k ≠ "wikidata_url" → k ≠ "url" → k ≠ "url_raw" →
                dget d' k =
                  dget (dset (dset (dset (dset data "description"
                      (jgetD (.obj kvs) "description")) "pageid"
                      (pyOr (jgetD (.obj kvs) "id") (jgetD (.obj kvs) "pageid")))
                      "exrest" (jgetD (.obj kvs) "extract")) "exhtml"
                      (jgetD (.obj kvs) "extract_html")) k := by
              intro k h1 h2 h3 h4 h5 h6 h7
              rw [url_step_ok_get _ _ _ _ h k h6 h7,
                  wikibase_step_ok_get _ _ _ hw1 k h4 h5,
                  title_step_ok_get _ _ _ ht1 k h3,
                  lead_step_ok_get _ _ _ hl1 k h2,
                  modified_step_ok_get _ _ _ hm1 k h1]
            refine ⟨?_, ?_, ?_, ?_, ?_, ?_, ?_, ?_⟩
            · rw [base "description" (by decide) (by decide) (by decide) (by decide)
                (by decide) (by decide) (by decide)]
              simp +decide [dget_dset_ne, dget_dset_self]
            · rw [base "pageid" (by decide) (by decide) (by decide) (by decide)
                (by decide) (by decide) (by decide)]
              simp +decide [dget_dset_ne, dget_dset_self]
            · rw [base "exrest" (by decide) (by decide) (by decide) (by decide)
                (by decide) (by decide) (by decide)]
              simp +decide [dget_dset_ne, dget_dset_self]
            · rw [base "exhtml" (by decide) (by decide) (by decide) (by decide)
                (by decide) (by decide) (by decide)]
              simp +decide [dget_dset_ne, dget_dset_self]
            · intro htf
              have hsk := title_step_skip d2 _ htf
              rw [ht1] at hsk
              injection hsk with hd
              rw [url_step_ok_get _ _ _ _ h "title" (by decide) (by decide),
                  wikibase_step_ok_get _ _ _ hw1 "title" (by decide) (by decide),
                  hd,
                  lead_step_ok_get _ _ _ hl1 "title" (by decide),
                  modified_step_ok_get _ _ _ hm1 "title" (by decide)]
              simp +decide [dget_dset_ne, dget_dset_self]
            · intro s hs heqt
              rw [heqt] at ht1
              have hset := title_step_str d2 s hs
              rw [ht1] at hset
              injection hset with hd
              rw [url_step_ok_get _ _ _ _ h "title" (by decide) (by decide),
                  wikibase_step_ok_get _ _ _ hw1 "title" (by decide) (by decide),
                  hd, dget_dset_self]
            · intro hsf
              have hsk := lead_step_skip d1 _ hsf
              rw [hl1] at hsk
              injection hsk with hd
              rw [url_step_ok_get _ _ _ _ h "lead" (by decide) (by decide),
                  wikibase_step_ok_get _ _ _ hw1 "lead" (by decide) (by decide),
                  title_step_ok_get _ _ _ ht1 "lead" (by decide),
                  hd,
                  modified_step_ok_get _ _ _ hm1 "lead" (by decide)]
              simp +decide [dget_dset_ne, dget_dset_self]
            · intro hwf
              have hsk := wikibase_step_skip d3 _ hwf
              rw [hw1] at hsk
              injection hsk with hd
              rw [url_step_ok_get _ _ _ _ h "wikibase" (by decide) (by decide),
                  hd,
                  title_step_ok_get _ _ _ ht1 "wikibase" (by decide),
                  lead_step_ok_get _ _ _ hl1 "wikibase" (by decide),
                  modified_step_ok_get _ _ _ hm1 "wikibase" (by decide)]
              simp +decide [dget_dset_ne, dget_dset_self]

/-- Witness for `extract_fields_spec`: a concrete extraction that
overwrites `description`, normalizes the title and preserves a prior
`lead`. -/
theorem extract_fields_spec_witness :
    extract_fields [("lead", JValue.str "old")]
        (.obj [("description", .str "d"), ("pageid", .num 7), ("title", .str "A B")])
        (some "https://en.wikipedia.org/x") (some "A_B") =
      .ok [("lead", JValue.str "old"), ("description", JValue.str "d"),
           ("pageid", JValue.num 7), ("exrest", JValue.null),
           ("exhtml", JValue.null), ("title", JValue.str "A_B"),
           ("url", JValue.str "https://en.wikipedia.org/wiki/A_B"),
           ("url_raw", JValue.str "https://en.wikipedia.org/wiki/A_B?action=raw")] ∧
    dget [("lead", JValue.str "old"), ("description", JValue.str "d"),
           ("pageid", JValue.num 7), ("exrest", JValue.null),
           ("exhtml", JValue.null), ("title", JValue.str "A_B"),
           ("url", JValue.str "https://en.wikipedia.org/wiki/A_B"),
           ("url_raw", JValue.str "https://en.wikipedia.org/wiki/A_B?action=raw")]
      "description" = some (JValue.str "d") ∧
    dget [("lead", JValue.str "old"), ("description", JValue.str "d"),
           ("pageid", JValue.num 7), ("exrest", JValue.null),
           ("exhtml", JValue.null), ("title", JValue.str "A_B"),
           ("url", JValue.str "https://en.wikipedia.org/wiki/A_B"),
           ("url_raw", JValue.str "https://en.wikipedia.org/wiki/A_B?action=raw")]
      "title" = some (JValue.str (underscored "A B")) ∧
    dget [("lead", JValue.str "old"), ("description", JValue.str "d"),
           ("pageid", JValue.num 7), ("exrest", JValue.null),
           ("exhtml", JValue.null), ("title", JValue.str "A_B"),
           ("url", JValue.str "https://en.wikipedia.org/wiki/A_B"),
           ("url_raw", JValue.str "https://en.wikipedia.org/wiki/A_B?action=raw")]
      "lead" = some (JValue.str "old") := by
  refine ⟨rfl, ?_, ?_, ?_⟩
  · exact (extract_fields_spec [("lead", JValue.str "old")]
      (.obj [("description", .str "d"), ("pageid", .num 7), ("title", .str "A B")])
      (some "https://en.wikipedia.org/x") (some "A_B") _ rfl).1
  · exact (extract_fields_spec [("lead", JValue.str "old")]
      (.obj [("description", .str "d"), ("pageid", .num 7), ("title", .str "A B")])
      (some "https://en.wikipedia.org/x") (some "A_B") _ rfl).2.2.2.2.2.1
      "A B" (by decide) rfl
  · exact (extract_fields_spec [("lead", JValue.str "old")]
      (.obj [("description", .str "d"), ("pageid", .num 7), ("title", .str "A B")])
      (some "https://en.wikipedia.org/x") (some "A_B") _ rfl).2.2.2.2.2.2.1
      (by decide)

/-- A successful lookup implies key membership. -/
theorem dmem_of_dget_some (d : Dict α) (k : String) (v : α)
    (h : dget d k = some v) : dmem d k = true := by
  by_cases hm : dmem d k
  · exact hm
  · rw [Bool.not_eq_true] at hm
    rw [dget_eq_none_of_not_dmem d k hm] at h
    exact Option.noConfusion h

/-- The `kind` tag of an Image Record survives the `dict.update` calls as
long as the source shape itself carries no `kind` key. -/
theorem imageRecord_kind (tag : String) (us : Bool) (kvs : Dict JValue)
    (h : ∀ p ∈ kvs, p.1 ≠ "kind") :
    dget (imageRecord tag us kvs) "kind" = some (.str tag) := by
  unfold imageRecord
  have hurl : ∀ v : JValue, ∀ p ∈ ([("url", v)] : Dict JValue), p.1 ≠ "kind" := by
    intro v p hp
    rcases List.mem_singleton.mp hp with rfl
    simp
  split
  · rw [dget_dictUpdate_not_mem _ _ _ (hurl _),
      dget_dictUpdate_not_mem _ _ _ h]
    rfl
  · rw [dget_dictUpdate_not_mem _ _ _ h]
    rfl

/-- One per-shape block, when it succeeds, can only append to the shared
image list. -/
theorem image_shape_step_append (tag : String) (us : Bool) (shape : JValue)
    (data d' : Dict JValue) (h : image_shape_step tag us shape data = .ok d')
    (xs : List JValue) (hx : dget data "image" = some (.arr xs)) :
    ∃ tail, dget d' "image" = some (.arr (xs ++ tail)) := by
  unfold image_shape_step at h
  split at h
  · split at h
    · rename_i kvs htr
      unfold appendImage at h
      rw [hx] at h
      injection h with h
      refine ⟨[.obj (imageRecord tag us kvs)], ?_⟩
      rw [← h, dget_dset_self]
    · exact Except.noConfusion h
  · injection h with h
    exact ⟨[], by rw [← h, List.append_nil]; exact hx⟩

/-- A falsy shape leaves the data untouched. -/
theorem image_shape_step_skip (tag : String) (us : Bool) (shape : JValue)
    (data : Dict JValue) (h : truthy shape = false) :
    image_shape_step tag us shape data = .ok data := by
  simp [image_shape_step, h]

/-- A truthy object shape appends exactly its tagged record. -/
theorem image_shape_step_obj (tag : String) (us : Bool) (kvs : Dict JValue)
    (data : Dict JValue) (xs : List JValue)
    (htr : truthy (.obj kvs) = true) (hx : dget data "image" = some (.arr xs)) :
    image_shape_step tag us (.obj kvs) data =
      .ok (dset data "image" (.arr (xs ++ [.obj (imageRecord tag us kvs)]))) := by
  simp [image_shape_step, htr, appendImage, hx]

/-- **C8**: image unpacking only appends tagged Image Records, never
replacing or mutating existing ones: any successful `_unpack_images` run
extends the existing image list by a (possibly empty) tail, and a response
carrying both an original-image and a thumbnail shape (and no plain image
shape) appends exactly two records whose `kind` tags are distinct
(`restbase-original` and `restbase-thumb`, provided the shapes carry no
`kind` key of their own); a later fetch adding a third shape again only
appends, leaving the first records unchanged. -/
theorem unpack_images_append_only :
    (∀ (rdata : JValue) (data d' : Dict JValue) (xs : List JValue),
      unpack_images rdata data = .ok d' →
      dget data "image" = some (.arr xs) →
      ∃ tail, dget d' "image" = some (.arr (xs ++ tail))) ∧
    (∀ (rdata : JValue) (data : Dict JValue) (o t : Dict JValue) (xs : List JValue),
      truthy (jgetD rdata "image") = false →
      jgetD rdata "originalimage" = .obj o → truthy (.obj o) = true →
      jgetD rdata "thumbnail" = .obj t → truthy (.obj t) = true →
      dget data "image" = some (.arr xs) →
      ∃ d', unpack_images rdata data = .ok d' ∧
        dget d' "image" = some (.arr (xs ++
          [.obj (imageRecord "restbase-original" true o),
           .obj (imageRecord "restbase-thumb" true t)])) ∧
        ((∀ p ∈ o, p.1 ≠ "kind") →
          dget (imageRecord "restbase-original" true o) "kind" =
            some (.str "restbase-original")) ∧
        ((∀ p ∈ t, p.1 ≠ "kind") →
          dget (imageRecord "restbase-thumb" true t) "kind" =
            some (.str "restbase-thumb"))) := by
  constructor
  · intro rdata data d' xs h hx
    have hm := dmem_of_dget_some _ _ _ hx
    unfold unpack_images at h
    dsimp only [] at h
    rw [hm] at h
    simp only [if_true, ite_self] at h
    split at h
    · exact Except.noConfusion h
    · rename_i data1 h1
      split at h
      · exact Except.noConfusion h
      · rename_i data2 h2
        split at h
        · exact Except.noConfusion h
        · rename_i data3 h3
          injection h with h
          obtain ⟨t1, e1⟩ := image_shape_step_append _ _ _ _ _ h1 xs hx
          obtain ⟨t2, e2⟩ := image_shape_step_append _ _ _ _ _ h2 _ e1
          obtain ⟨t3, e3⟩ := image_shape_step_append _ _ _ _ _ h3 _ e2
          refine ⟨t1 ++ t2 ++ t3, ?_⟩
          rw [← h, e3]
          simp [List.append_assoc]
  · intro rdata data o t xs himg ho hot ht htt hx
    have hm := dmem_of_dget_some _ _ _ hx
    refine ⟨dset (dset data "image"
        (.arr (xs ++ [.obj (imageRecord "restbase-original" true o)]))) "image"
        (.arr ((xs ++ [.obj (imageRecord "restbase-original" true o)]) ++
          [.obj (imageRecord "restbase-thumb" true t)])),
      ?_, ?_, fun hko => imageRecord_kind _ _ _ hko,
      fun hkt => imageRecord_kind _ _ _ hkt⟩
    · unfold unpack_images
      dsimp only []
      rw [himg, ho, ht, hot, htt, hm]
      simp only [Bool.false_or, Bool.or_self, if_true, ite_self]
      rw [image_shape_step_skip _ _ _ _ himg]
      dsimp only []
      rw [image_shape_step_obj "restbase-original" true o data xs hot hx]
      dsimp only []
      rw [image_shape_step_obj "restbase-thumb" true t _ _ htt
        (dget_dset_self _ _ _)]
    · rw [dget_dset_self]
      simp [List.append_assoc]

/-- Witness for `unpack_images_append_only`: a concrete two-shape response
on an empty image list, followed by a second fetch whose plain image shape
appends a third record after the unchanged first two. -/
theorem unpack_images_append_only_witness :
    (∃ d', unpack_images
        (.obj [("originalimage", .obj [("source", .str "u1"), ("width", .num 5)]),
               ("thumbnail", .obj [("source", .str "u2")])])
        [("image", JValue.arr [])] = .ok d' ∧
      dget d' "image" = some (.arr
        ([] ++ [.obj (imageRecord "restbase-original" true
                  [("source", .str "u1"), ("width", .num 5)]),
                .obj (imageRecord "restbase-thumb" true [("source", .str "u2")])])) ∧
      ((∀ p ∈ ([("source", JValue.str "u1"), ("width", JValue.num 5)] : Dict JValue),
          p.1 ≠ "kind") →
        dget (imageRecord "restbase-original" true
          [("source", .str "u1"), ("width", .num 5)]) "kind" =
            some (.str "restbase-original")) ∧
      ((∀ p ∈ ([("source", JValue.str "u2")] : Dict JValue), p.1 ≠ "kind") →
        dget (imageRecord "restbase-thumb" true [("source", .str "u2")]) "kind" =
          some (.str "restbase-thumb"))) ∧
    (∃ tail, dget
        [("image", JValue.arr
          [.obj (imageRecord "restbase-original" true
             [("source", .str "u1"), ("width", .num 5)]),
           .obj (imageRecord "restbase-thumb" true [("source", .str "u2")]),
           .obj (imageRecord "restbase-image" false [("url", .str "u3")])])]
        "image" = some (.arr
          ([.obj (imageRecord "restbase-original" true
              [("source", .str "u1"), ("width", .num 5)]),
            .obj (imageRecord "restbase-thumb" true [("source", .str "u2")])] ++ tail))) := by
  constructor
  · exact unpack_images_append_only.2
      (.obj [("originalimage", .obj [("source", .str "u1"), ("width", .num 5)]),
             ("thumbnail", .obj [("source", .str "u2")])])
      [("image", JValue.arr [])]
      [("source", .str "u1"), ("width", .num 5)] [("source", .str "u2")] []
      rfl rfl (by decide) rfl (by decide) rfl
  · exact unpack_images_append_only.1
      (.obj [("image", .obj [("url", .str "u3")])])
      [("image", JValue.arr
        [.obj (imageRecord "restbase-original" true
           [("source", .str "u1"), ("width", .num 5)]),
         .obj (imageRecord "restbase-thumb" true [("source", .str "u2")])])]
      [("image", JValue.arr
        [.obj (imageRecord "restbase-original" true
           [("source", .str "u1"), ("width", .num 5)]),
         .obj (imageRecord "restbase-thumb" true [("source", .str "u2")]),
         .obj (imageRecord "restbase-image" false [("url", .str "u3")])])]
      [.obj (imageRecord "restbase-original" true
         [("source", .str "u1"), ("width", .num 5)]),
       .obj (imageRecord "restbase-thumb" true [("source", .str "u2")])]
      rfl rfl

/-- Helper: when the cached `restbase` entry holds a non-empty body that
does not parse as JSON and a non-HTML content-type, `_set_restbase_data`
raises the malformed-response error (before touching `data`). -/
theorem set_restbase_data_malformed (st : State) (raw : String) (i : Info)
    (hraw : raw ≠ "") (hhtml : pyStartsWith "text/html" i.content = false)
    (hent : (dget st.cache "restbase").map
        (fun e => (e.query.isSome, e.response, e.info)) =
      some (true, some ⟨raw, none⟩, some i)) :
    set_restbase_data st = .error .malformed := by
  cases hdg : dget st.cache "restbase" with
  | none => rw [hdg] at hent; exact Option.noConfusion hent
  | some e =>
    rw [hdg] at hent
    simp only [Option.map_some', Option.some_inj, Prod.mk.injEq] at hent
    obtain ⟨hq, hresp, hinfo⟩ := hent
    obtain ⟨qv, hqv⟩ := Option.isSome_iff_exists.mp hq
    unfold set_restbase_data handle_response
    rw [hdg]
    dsimp only []
    rw [hinfo]
    dsimp only []
    rw [hhtml]
    simp only [Bool.false_eq_true, if_false]
    unfold load_response
    rw [hqv, hresp]
    dsimp only []
    rw [if_neg hraw]

/-- **C9**: a fetch whose transport returns a non-empty, non-HTML body that
does not parse as structured data fails with the malformed-response error,
and the shared `data` map is unmodified relative to its state before the
call. -/
theorem restbase_malformed_data_unchanged (st : State) (raw : String) (i : Info)
    (hraw : raw ≠ "") (hhtml : pyStartsWith "text/html" i.content = false)
    (hc : dmem st.cache "restbase" = false)
    (hskip : st.skip.contains "restbase" = false) :
    (restbaseGet st ⟨raw, none⟩ i).err = some .malformed ∧
    (restbaseGet st ⟨raw, none⟩ i).st.data = st.data := by
  unfold restbaseGet WPTools_get get_body
  rw [hc]
  simp only [Bool.false_eq_true, if_false]
  split
  · rename_i hsk
    have hsk' : st.skip.contains "restbase" = true := hsk
    rw [hskip] at hsk'
    exact Bool.noConfusion hsk'
  · split
    · rename_i st5 ns hp
      rw [set_restbase_data_malformed _ raw i hraw hhtml
        (by simp [dget_dset_self])] at hp
      exact Except.noConfusion hp
    · rename_i e he
      rw [set_restbase_data_malformed _ raw i hraw hhtml
        (by simp [dget_dset_self])] at he
      injection he with he
      rw [← he]
      exact ⟨rfl, rfl⟩

/-- Witness for `restbase_malformed_data_unchanged` at a concrete state
with a truncated-JSON body. -/
theorem restbase_malformed_data_unchanged_witness :
    ("nonsense" ≠ "") ∧
    pyStartsWith "text/html" "application/json" = false ∧
    (restbaseGet
        { cache := [], data := [("k", JValue.str "v")],
            endpoint := "/page/summary/X", title := some "X" }
        ⟨"nonsense", none⟩ ⟨200, "application/json"⟩).err = some .malformed ∧
    (restbaseGet
        { cache := [], data := [("k", JValue.str "v")],
            endpoint := "/page/summary/X", title := some "X" }
        ⟨"nonsense", none⟩ ⟨200, "application/json"⟩).st.data =
      [("k", JValue.str "v")] := by
  refine ⟨by decide, by decide, ?_, ?_⟩
  · exact (restbase_malformed_data_unchanged
      { cache := [], data := [("k", JValue.str "v")],
          endpoint := "/page/summary/X", title := some "X" }
      "nonsense" ⟨200, "application/json"⟩
      (by decide) (by decide) (by decide) (by decide)).1
  · exact (restbase_malformed_data_unchanged
      { cache := [], data := [("k", JValue.str "v")],
          endpoint := "/page/summary/X", title := some "X" }
      "nonsense" ⟨200, "application/json"⟩
      (by decide) (by decide) (by decide) (by decide)).2
